import Mathlib

/-!
Shallow embedding of the real-time simulation core of
`src/spaceship_game_frontend/src/components/GameCanvas.jsx`.

Numeric state that the JavaScript code holds in IEEE doubles is modelled
over `ℚ` wherever the code only uses field arithmetic, comparisons and
floors, so every definition is executable and decidable.  The rocket-AI
steering step uses `Math.atan2`, `Math.sin`, `Math.cos` and `Math.sqrt`;
that single step is modelled over `ℝ`.

Entity records keep the source field names.  List-rebuilding passes
(`Array.prototype.filter` with side-effecting callbacks) are modelled as
structural recursion or `List.filter` plus `List.countP`, matching the
order of the source's per-tick passes.
-/

/-- Axis-aligned box used by the `aabb` collision test. -/
structure Box where
  x : ℚ
  y : ℚ
  w : ℚ
  h : ℚ
deriving DecidableEq

/-- The player ship record (`stateRef.current.ship`), gameplay fields only. -/
structure Ship where
  x : ℚ
  y : ℚ
  w : ℚ
  h : ℚ
  vx : ℚ
  vy : ℚ
  speed : ℚ
  damageFlash : ℚ
deriving DecidableEq

/-- A rocket as pushed by `spawnRockets`, gameplay fields only. -/
structure Rocket where
  x : ℚ
  y : ℚ
  vx : ℚ
  vy : ℚ
  w : ℚ
  h : ℚ
  active : Bool
  launched : Bool
  targetingEnabled : Bool
  interceptMode : Bool
  steeringForce : ℚ
  predictionTime : ℚ
  maxTurnRate : ℚ
  lastTargetX : ℚ
  lastTargetY : ℚ
deriving DecidableEq

/-- A bullet as pushed by `shoot`. -/
structure Bullet where
  x : ℚ
  y : ℚ
  vx : ℚ
  vy : ℚ
  r : ℚ
deriving DecidableEq

/-- A bomb as pushed by `bomb`. -/
structure Bomb where
  x : ℚ
  y : ℚ
  vx : ℚ
  vy : ℚ
  r : ℚ
  fuse : ℚ
  spawn : ℚ
deriving DecidableEq

/-- One terrain sample `{x, y}` as produced by `buildTerrain` (samples sit at
horizontal spacing 6). -/
structure TerrainPoint where
  x : ℚ
  y : ℚ
deriving DecidableEq

/-- Particle kind tag (the source dispatches on the string `p.type`). -/
inductive PType where
  | flame
  | spark
  | debris
  | rocketExhaust
  | other
deriving DecidableEq

/-- A particle (gameplay fields of the objects pushed by `explode` and the
rocket-exhaust emitter). -/
structure Particle where
  x : ℚ
  y : ℚ
  vx : ℚ
  vy : ℚ
  life : ℚ
  age : ℚ
  size : ℚ
  type : PType
deriving DecidableEq

/-- Held-key flags read by the ship controller (`st.keys`). -/
structure Keys where
  up : Bool
  down : Bool
  left : Bool
  right : Bool
deriving DecidableEq

/-- The `aabb` helper of the source, verbatim. -/
def aabb (a b : Box) : Bool :=
  decide (a.x < b.x + b.w ∧ a.x + a.w > b.x ∧ a.y < b.y + b.h ∧ a.y + a.h > b.y)

/-- Bounding box of a rocket (rockets carry `x, y, w, h` directly). -/
def rocketBox (r : Rocket) : Box :=
  { x := r.x, y := r.y, w := r.w, h := r.h }

/-- Bounding box of the ship (`const shipBox = { x, y, w, h }`). -/
def shipBox (s : Ship) : Box :=
  { x := s.x, y := s.y, w := s.w, h := s.h }

/-- Box built for a bullet in the bullet-rocket pass:
`{ x: b.x - b.r, y: b.y - b.r, w: b.r * 2, h: b.r * 2 }`. -/
def bulletBox (b : Bullet) : Box :=
  { x := b.x - b.r, y := b.y - b.r, w := b.r * 2, h := b.r * 2 }

/-- The `groundYAt` lookup of the source:
`idx = Math.floor((x + terrainOffset) / 6); terrain[idx]?.y ?? height * 0.85`.
A negative or too-large index yields `undefined`, hence the default. -/
def groundYAt (terrain : List TerrainPoint) (offset height x : ℚ) : ℚ :=
  let idx : ℤ := ⌊(x + offset) / 6⌋
  if 0 ≤ idx then ((terrain.get? idx.toNat).map TerrainPoint.y).getD (height * 0.85)
  else height * 0.85

/-- Modelled from the spec: the spec's words for `groundYAt` say the lookup
index is "clamped to sequence bounds", with the default height only "if
unset" (empty sequence).  This definition follows those words, for
comparison with the source's `groundYAt` above. -/
def groundYAtClamped (terrain : List TerrainPoint) (offset height x : ℚ) : ℚ :=
  match terrain with
  | [] => height * 0.85
  | p :: _ =>
    let idx : ℤ := ⌊(x + offset) / 6⌋
    (terrain.getD (min idx.toNat (terrain.length - 1)) p).y

/-- Per-tick delta time:
`const dt = st.lastTime ? Math.min(0.033, (now - st.lastTime) / 1000) : 0`.
The truthiness test on `st.lastTime` is `lastTime ≠ 0`. -/
def dtOf (lastTime now : ℚ) : ℚ :=
  if lastTime ≠ 0 then min 0.033 ((now - lastTime) / 1000) else 0

/-- Ship control step of `loop` (velocity from keys, auto-scroll bias,
integration, horizontal and vertical clamps, damage-flash countdown). -/
def shipUpdate (s : Ship) (k : Keys) (autoScroll dt width : ℚ)
    (terrain : List TerrainPoint) (offset height : ℚ) : Ship :=
  let vx := (if k.right then (1 : ℚ) else 0) * s.speed
    - (if k.left then (1 : ℚ) else 0) * s.speed * 0.8
  let vy := (if k.down then (1 : ℚ) else 0) * s.speed
    - (if k.up then (1 : ℚ) else 0) * s.speed
  let x1 := s.x + (autoScroll + vx) * dt
  let y1 := s.y + vy * dt
  let x2 := max 20 (min (width * 0.7) x1)
  let gY := groundYAt terrain offset height x2
  let y2 := max 40 (min (gY - s.h - 10) y1)
  let df := if s.damageFlash > 0 then max 0 (s.damageFlash - dt * 1000)
    else s.damageFlash
  { s with x := x2, y := y2, vx := vx, vy := vy, damageFlash := df }

/-- Kinematic part of the rocket update (position integration against the
terrain scroll, state-dependent gravity, launch flag).  The AI velocity
steering that precedes it is modelled separately over `ℝ`. -/
def rocketMove (r : Rocket) (dt scroll g : ℚ) : Rocket :=
  let x := r.x + (r.vx - scroll) * dt
  let y := r.y + r.vy * dt
  let grav : ℚ := if r.active && r.interceptMode then 0.15 else 0.35
  let vy := r.vy + g * dt * grav
  let launched := r.launched || decide (vy < 0)
  { r with x := x, y := y, vy := vy, launched := launched }

/-- Bullet integration: `b.x += (b.vx - terrainScrollSpeed) * dt; b.y += b.vy * dt`. -/
def bulletMove (b : Bullet) (dt scroll : ℚ) : Bullet :=
  { b with x := b.x + (b.vx - scroll) * dt, y := b.y + b.vy * dt }

/-- Bomb integration with gravity: position first, then `b.vy += 480 * dt`. -/
def bombMove (b : Bomb) (dt scroll : ℚ) : Bomb :=
  { b with
    x := b.x + (b.vx - scroll) * dt
    y := b.y + b.vy * dt
    vy := b.vy + 480 * dt }

/-- Particle physics step: position integration, then kind-selected friction
and gravity bias, then ageing (drawing is out of scope). -/
def particleUpdate (p : Particle) (dt : ℚ) : Particle :=
  let x := p.x + p.vx * dt
  let y := p.y + p.vy * dt
  let age := p.age + dt * 1000
  match p.type with
  | PType.flame =>
    { p with x := x, y := y, vx := p.vx * 0.95, vy := p.vy * 0.95 - 20 * dt, age := age }
  | PType.spark =>
    { p with x := x, y := y, vx := p.vx * 0.92, vy := p.vy * 0.92 + 80 * dt, age := age }
  | PType.debris =>
    { p with x := x, y := y, vx := p.vx * 0.98, vy := p.vy * 0.98 + 120 * dt, age := age }
  | PType.rocketExhaust =>
    { p with x := x, y := y, vx := p.vx * 0.90, vy := p.vy * 0.94 + 60 * dt, age := age }
  | PType.other =>
    { p with x := x, y := y, vx := p.vx * 0.98, vy := p.vy * 0.98, age := age }

/-- Rocket pruning pass:
`st.rockets = st.rockets.filter(r => r.x > -60 && r.y < st.height + 60)`. -/
def pruneRockets (height : ℚ) (rs : List Rocket) : List Rocket :=
  rs.filter (fun r => decide (r.x > -60 ∧ r.y < height + 60))

/-- Bullet pruning pass:
`st.bullets = st.bullets.filter(b => b.x < st.width + 40 && b.x > -40)`. -/
def pruneBullets (width : ℚ) (bs : List Bullet) : List Bullet :=
  bs.filter (fun b => decide (b.x < width + 40 ∧ b.x > -40))

/-- Horizontal center of a rocket as used by the bomb pass (`r.x + r.w / 2`). -/
def rocketCenterX (r : Rocket) : ℚ := r.x + r.w / 2

/-- Vertical center of a rocket as used by the bomb pass (`r.y + r.h / 2`). -/
def rocketCenterY (r : Rocket) : ℚ := r.y + r.h / 2

/-- The bomb pass destroys a rocket when the squared center distance is
strictly below `radius * radius` with `radius = 90`. -/
def inBombRadius (bx bombY : ℚ) (r : Rocket) : Bool :=
  decide ((rocketCenterX r - bx) ^ 2 + (rocketCenterY r - bombY) ^ 2 < 90 ^ 2)

/-- Rocket-destruction part of a bomb detonation at `(bx, bombY)`:
surviving rockets and the `destroyed` counter of the source. -/
def detonate (bx bombY : ℚ) (rs : List Rocket) : List Rocket × ℕ :=
  (rs.filter (fun r => !inBombRadius bx bombY r),
   rs.countP (fun r => inBombRadius bx bombY r))

/-- Score emission of the bomb pass:
`if (destroyed > 0) onScore(destroyed * 20)`. -/
def bombScoreEvent (destroyed : ℕ) : Option ℕ :=
  if 0 < destroyed then some (destroyed * 20) else none

/-- Bullet-rocket collision pass.  The source filters rockets while splicing
the first matching bullet out of the bullet list and counting hits; this
recursion reproduces that sequential left-to-right behaviour.  Returns
(surviving rockets, surviving bullets, hits). -/
def bulletPass : List Rocket → List Bullet → List Rocket × List Bullet × ℕ
  | [], bs => ([], bs, 0)
  | r :: rs, bs =>
    match bs.findIdx? (fun b => aabb (bulletBox b) (rocketBox r)) with
    | some i =>
      let rest := bulletPass rs (bs.eraseIdx i)
      (rest.1, rest.2.1, rest.2.2 + 1)
    | none =>
      let rest := bulletPass rs bs
      (r :: rest.1, rest.2.1, rest.2.2)

/-- Score emission of the bullet pass: `if (hits) onScore(hits * 10)`. -/
def bulletScoreEvent (hits : ℕ) : Option ℕ :=
  if 0 < hits then some (hits * 10) else none

/-- Hit predicate of the rocket-ship pass: `r.active && aabb(shipBox, r)`. -/
def shipHit (s : Ship) (r : Rocket) : Bool :=
  r.active && aabb (shipBox s) (rocketBox r)

/-- Rocket-ship collision pass: surviving rockets and the `damage` counter. -/
def shipRocketPass (s : Ship) (rs : List Rocket) : List Rocket × ℕ :=
  (rs.filter (fun r => !shipHit s r), rs.countP (fun r => shipHit s r))

/-- Net damage-flash value after the rocket-ship pass (each hit assigns
`st.ship.damageFlash = 500`). -/
def shipRocketFlash (s : Ship) (rs : List Rocket) : ℚ :=
  if 0 < (shipRocketPass s rs).2 then 500 else s.damageFlash

/-- Life-loss emission of the rocket-ship pass: `if (damage) onLoseLife()`
fires once per tick when at least one hit happened. -/
def loseLifeEmitted (s : Ship) (rs : List Rocket) : Bool :=
  decide (0 < (shipRocketPass s rs).2)

/-- Guard of `shoot`: `if (st.lastShot && now - st.lastShot < 180) return`.
JavaScript truthiness makes a stored timestamp of `0` pass the guard. -/
def shootBlocked (lastShot : Option ℚ) (now : ℚ) : Bool :=
  match lastShot with
  | none => false
  | some t => decide (t ≠ 0) && decide (now - t < 180)

/-- The slice of mutable state read and written by `shoot`. -/
structure ShootState where
  lastShot : Option ℚ
  bullets : List Bullet
deriving DecidableEq

/-- The bullet pushed by `shoot`. -/
def newBullet (s : Ship) : Bullet :=
  { x := s.x + s.w, y := s.y + s.h * 0.4, vx := 520, vy := 0, r := 3 }

/-- The `shoot` action (rate-limited bullet spawn). -/
def shoot (s : Ship) (now : ℚ) (st : ShootState) : ShootState :=
  if shootBlocked st.lastShot now then st
  else { lastShot := some now, bullets := st.bullets ++ [newBullet s] }

/-- Level-progression clock step:
`st.levelTimer += dt * 1000; if (st.levelTimer >= 20000) { st.levelTimer = 0; onLevelProgress(); }`.
Returns the new timer and whether the progress signal fired. -/
def levelTick (timer dt : ℚ) : ℚ × Bool :=
  let t := timer + dt * 1000
  if 20000 ≤ t then (0, true) else (t, false)

/-- Rocket list at the end of a tick, starting from the already-moved rockets:
the pruning filter, then the rocket filter of each exploding bomb in order,
then the bullet-rocket pass, then the rocket-ship pass (the source's pass
order). -/
def rocketsAfterTick (rs : List Rocket) (height : ℚ) (bombPts : List (ℚ × ℚ))
    (bs : List Bullet) (s : Ship) : List Rocket :=
  let pruned := pruneRockets height rs
  let afterBombs := bombPts.foldl (fun acc p => (detonate p.1 p.2 acc).1) pruned
  let afterBullets := (bulletPass afterBombs bs).1
  (shipRocketPass s afterBullets).1

/-- Bullet list at the end of a tick, starting from the already-moved
bullets: the pruning filter followed by the bullet-rocket pass. -/
def bulletsAfterTick (rs : List Rocket) (width : ℚ) (bs : List Bullet) : List Bullet :=
  (bulletPass rs (pruneBullets width bs)).2.1

/-- The `Math.atan2(y, x)` convention of JavaScript over `ℝ` (the signed-zero
distinctions of IEEE doubles collapse; `atan2 0 0 = 0` as in JS for `+0`). -/
noncomputable def atan2 (y x : ℝ) : ℝ :=
  if 0 < x then Real.arctan (y / x)
  else if x < 0 then
    if 0 ≤ y then Real.arctan (y / x) + Real.pi else Real.arctan (y / x) - Real.pi
  else
    if 0 < y then Real.pi / 2 else if y < 0 then -(Real.pi / 2) else 0

/-- Angle wrapping of the AI step
(`while (d > π) d -= 2π; while (d < -π) d += 2π`).  A single conditional step
is exact on `(-3π, 3π]`, which covers every call site: the argument is always
a difference of two `atan2` values, each in `(-π, π]`. -/
noncomputable def wrapAngle (a : ℝ) : ℝ :=
  if a > Real.pi then a - 2 * Real.pi
  else if a < -Real.pi then a + 2 * Real.pi
  else a

/-- The clamped per-tick turn delta of the AI step:
`Math.max(-maxTurnThisFrame, Math.min(maxTurnThisFrame, angleDiff))` with
`maxTurnThisFrame = r.maxTurnRate * dt`. -/
noncomputable def aiTurnAmount (maxTurnRate dt angleDiff : ℝ) : ℝ :=
  max (-(maxTurnRate * dt)) (min (maxTurnRate * dt) angleDiff)

/-- The AI targeting velocity update of `loop` for an active,
targeting-enabled, intercept-mode rocket: prediction of the ship center,
desired heading, clamped turn toward it, blend of the velocity toward the
turned heading, and the additive intercept steering force beyond 50 px.
Arguments mirror the fields read by the source; the result is the rocket's
velocity after the AI step (before the kinematic integration). -/
noncomputable def aiVelocityUpdate (rx ry rw rh vx vy steeringForce predictionTime
    maxTurnRate sx sy sw sh svx svy dt : ℝ) : ℝ × ℝ :=
  let rcx := rx + rw * 0.5
  let rcy := ry + rh * 0.5
  let pt := min predictionTime 2.0
  let px := (sx + sw * 0.5) + svx * pt
  let py := (sy + sh * 0.5) + svy * pt
  let dx := px - rcx
  let dy := py - rcy
  let dist := Real.sqrt (dx * dx + dy * dy)
  let currentAngle := atan2 vy vx
  let angleDiff := wrapAngle (atan2 dy dx - currentAngle)
  let turn := aiTurnAmount maxTurnRate dt angleDiff
  let newAngle := currentAngle + turn
  let speed := Real.sqrt (vx * vx + vy * vy)
  let sMul := min 1.0 (dist / 200) * (steeringForce / 200) * dt
  let vx1 := vx + (Real.cos newAngle * speed - vx) * sMul
  let vy1 := vy + (Real.sin newAngle * speed - vy) * sMul
  if dist > 50 then
    (vx1 + dx / dist * steeringForce * 0.3 * dt, vy1 + dy / dist * steeringForce * 0.3 * dt)
  else (vx1, vy1)

/-- Signed change of heading between two velocity vectors, wrapped to
`[-π, π]` the way the source wraps angle differences. -/
noncomputable def headingChange (v0x v0y v1x v1y : ℝ) : ℝ :=
  wrapAngle (atan2 v1y v1x - atan2 v0y v0x)

/-- C3 (amended): the per-tick turn delta that the AI applies toward the
blend-target heading is clamped to `maxTurnRate * dt` in absolute value; the
final velocity heading can move further because of the additive intercept
steering-force term. -/
theorem ai_turn_delta_clamped (maxTurnRate dt angleDiff : ℝ)
    (h : 0 ≤ maxTurnRate * dt) :
    |aiTurnAmount maxTurnRate dt angleDiff| ≤ maxTurnRate * dt := by
  unfold aiTurnAmount
  rw [abs_le]
  exact ⟨le_max_left _ _, max_le (by linarith) (min_le_left _ _)⟩

/-- Witness for `ai_turn_delta_clamped` at the level-1 aggressiveness values
`maxTurnRate = 2.8`, `dt = 0.033` and a large desired angle difference. -/
theorem ai_turn_delta_clamped_witness :
    (0:ℝ) ≤ 2.8 * 0.033 ∧ |aiTurnAmount 2.8 0.033 3| ≤ 2.8 * 0.033 :=
  ⟨by norm_num, ai_turn_delta_clamped 2.8 0.033 3 (by norm_num)⟩

/-- C3 counterexample: a slow rocket (velocity `(1, 0)`) with the ship's
predicted center 300 px straight below receives, through the additive
intercept steering force, a velocity whose heading moved by more than
`maxTurnRate * dt = 2.8 * 0.033` within the single AI step — the claimed
per-tick cap on the velocity-heading change does not hold. -/
theorem ai_heading_change_exceeds_cap :
    2.8 * 0.033 < |headingChange 1 0
      (aiVelocityUpdate 0 0 8 18 1 0 195 0.9 2.8 (-15) 298 38 22 0 0 0.033).1
      (aiVelocityUpdate 0 0 8 18 1 0 195 0.9 2.8 (-15) 298 38 22 0 0 0.033).2| := by
  have hpi3 : (3:ℝ) < Real.pi := Real.pi_gt_three
  have ha0 : atan2 (0:ℝ) 1 = 0 := by
    simp only [atan2]
    rw [if_pos (by norm_num : (0:ℝ) < 1)]
    norm_num [Real.arctan_zero]
  have ha300 : atan2 (300:ℝ) 0 = Real.pi / 2 := by
    simp only [atan2]
    rw [if_neg (by norm_num), if_neg (by norm_num), if_pos (by norm_num : (0:ℝ) < 300)]
  have hwrap1 : wrapAngle (Real.pi / 2) = Real.pi / 2 := by
    unfold wrapAngle
    rw [if_neg (not_lt.mpr (by linarith)), if_neg (not_lt.mpr (by linarith))]
  have hturn : aiTurnAmount 2.8 0.033 (Real.pi / 2) = 2.8 * 0.033 := by
    unfold aiTurnAmount
    rw [min_eq_left (by nlinarith), max_eq_right (by norm_num)]
  have hs300 : Real.sqrt ((0:ℝ) * 0 + 300 * 300) = 300 := by
    rw [show ((0:ℝ) * 0 + 300 * 300) = 300 ^ 2 by norm_num,
      Real.sqrt_sq (by norm_num : (0:ℝ) ≤ 300)]
  have hs1 : Real.sqrt ((1:ℝ) * 1 + 0 * 0) = 1 := by
    rw [show ((1:ℝ) * 1 + 0 * 0) = 1 by norm_num, Real.sqrt_one]
  have hupd : aiVelocityUpdate 0 0 8 18 1 0 195 0.9 2.8 (-15) 298 38 22 0 0 0.033 =
      (1 + (Real.cos (2.8 * 0.033) - 1) * 0.032175,
        Real.sin (2.8 * 0.033) * 0.032175 + 1.9305) := by
    simp only [aiVelocityUpdate]
    rw [show (min (0.9:ℝ) 2.0) = 0.9 from min_eq_left (by norm_num)]
    rw [show ((0:ℝ) + 8 * 0.5) = 4 by norm_num]
    rw [show ((0:ℝ) + 18 * 0.5) = 9 by norm_num]
    rw [show ((-15:ℝ) + 38 * 0.5 + 0 * 0.9) = 4 by norm_num]
    rw [show ((298:ℝ) + 22 * 0.5 + 0 * 0.9) = 309 by norm_num]
    rw [show ((4:ℝ) - 4) = 0 by norm_num]
    rw [show ((309:ℝ) - 9) = 300 by norm_num]
    rw [hs300, ha0, ha300]
    rw [show (Real.pi / 2 - 0) = Real.pi / 2 from sub_zero _]
    rw [hwrap1, hturn]
    rw [show ((0:ℝ) + 2.8 * 0.033) = 2.8 * 0.033 from zero_add _]
    rw [hs1]
    rw [show (min (1.0:ℝ) (300 / 200) * (195 / 200) * 0.033) = 0.032175 by
      rw [min_eq_left (by norm_num)]; norm_num]
    rw [if_pos (by norm_num : (300:ℝ) > 50)]
    rw [Prod.mk.injEq]
    constructor
    · ring_nf
    · ring_nf
  have hupd1 : (aiVelocityUpdate 0 0 8 18 1 0 195 0.9 2.8 (-15) 298 38 22 0 0 0.033).1 =
      1 + (Real.cos (2.8 * 0.033) - 1) * 0.032175 := by rw [hupd]
  have hupd2 : (aiVelocityUpdate 0 0 8 18 1 0 195 0.9 2.8 (-15) 298 38 22 0 0 0.033).2 =
      Real.sin (2.8 * 0.033) * 0.032175 + 1.9305 := by rw [hupd]
  have hm_pos : (0:ℝ) < 2.8 * 0.033 := by norm_num
  have hm_lt : 2.8 * 0.033 < Real.pi / 2 := by nlinarith
  have hcos_le : Real.cos (2.8 * 0.033) ≤ 1 := Real.cos_le_one _
  have hcos_pos : 0 < Real.cos (2.8 * 0.033) :=
    Real.cos_pos_of_mem_Ioo (Set.mem_Ioo.mpr ⟨by linarith, hm_lt⟩)
  have hsin_pos : 0 < Real.sin (2.8 * 0.033) :=
    Real.sin_pos_of_pos_of_lt_pi hm_pos (by linarith)
  have hv1x_pos : 0 < 1 + (Real.cos (2.8 * 0.033) - 1) * 0.032175 := by nlinarith
  have hv1x_le : 1 + (Real.cos (2.8 * 0.033) - 1) * 0.032175 ≤ 1 := by nlinarith
  have hv1y_gt : (1.9305:ℝ) < Real.sin (2.8 * 0.033) * 0.032175 + 1.9305 := by nlinarith
  have hq : 1 < (Real.sin (2.8 * 0.033) * 0.032175 + 1.9305) /
      (1 + (Real.cos (2.8 * 0.033) - 1) * 0.032175) := by
    rw [lt_div_iff₀ hv1x_pos, one_mul]
    nlinarith
  have hat : atan2 (Real.sin (2.8 * 0.033) * 0.032175 + 1.9305)
      (1 + (Real.cos (2.8 * 0.033) - 1) * 0.032175) =
      Real.arctan ((Real.sin (2.8 * 0.033) * 0.032175 + 1.9305) /
        (1 + (Real.cos (2.8 * 0.033) - 1) * 0.032175)) := by
    simp only [atan2]
    rw [if_pos hv1x_pos]
  have harctan_gt : Real.pi / 4 < Real.arctan ((Real.sin (2.8 * 0.033) * 0.032175 + 1.9305) /
      (1 + (Real.cos (2.8 * 0.033) - 1) * 0.032175)) := by
    have h := Real.arctan_strictMono hq
    rwa [Real.arctan_one] at h
  have harctan_lt : Real.arctan ((Real.sin (2.8 * 0.033) * 0.032175 + 1.9305) /
      (1 + (Real.cos (2.8 * 0.033) - 1) * 0.032175)) < Real.pi / 2 :=
    Real.arctan_lt_pi_div_two _
  have hwrap2 : wrapAngle (Real.arctan ((Real.sin (2.8 * 0.033) * 0.032175 + 1.9305) /
      (1 + (Real.cos (2.8 * 0.033) - 1) * 0.032175))) =
      Real.arctan ((Real.sin (2.8 * 0.033) * 0.032175 + 1.9305) /
        (1 + (Real.cos (2.8 * 0.033) - 1) * 0.032175)) := by
    unfold wrapAngle
    rw [if_neg (not_lt.mpr (by linarith)), if_neg (not_lt.mpr (by linarith))]
  rw [hupd1, hupd2]
  simp only [headingChange]
  rw [ha0, sub_zero, hat, hwrap2]
  rw [abs_of_pos (by linarith)]
  linarith

example : groundYAt [⟨0, 100⟩] 0 720 3 = 100 := by
  simp only [groundYAt]
  norm_num

example : groundYAt [⟨0, 100⟩] 0 720 30 = 612 := by
  simp only [groundYAt]
  norm_num
  simp

example : (levelTick 19990 0.016).1 = 0 ∧ (levelTick 19990 0.016).2 = true := by
  simp only [levelTick]
  norm_num

/-- C6: the level-progress signal fires on a tick exactly when the
accumulated timer reaches the 20000 ms duration; on a firing tick the timer
is reset to exactly 0 (never negative), and on a non-firing tick it just
accumulates and no signal is raised. -/
theorem level_timer_reset_and_signal (timer dt : ℚ) :
    ((levelTick timer dt).2 = true ↔ 20000 ≤ timer + dt * 1000) ∧
    ((levelTick timer dt).2 = true → (levelTick timer dt).1 = 0) ∧
    ((levelTick timer dt).2 = false → (levelTick timer dt).1 = timer + dt * 1000) := by
  simp only [levelTick]
  split_ifs with h <;> simp [h]

/-- Witness for `level_timer_reset_and_signal`: a tick whose delta pushes the
timer from 19990 ms past the 20000 ms duration fires the signal and resets
the timer to 0. -/
theorem level_timer_reset_and_signal_witness :
    (levelTick 19990 0.016).2 = true ∧ (levelTick 19990 0.016).1 = 0 := by
  have h := level_timer_reset_and_signal 19990 0.016
  have hf : (levelTick 19990 0.016).2 = true := h.1.mpr (by norm_num)
  exact ⟨hf, h.2.1 hf⟩

/-- C9 (amended): `groundYAt` returns the sample whose index
`⌊(x + offset) / 6⌋` is within the sequence, and the fixed default
`height * 0.85` for every out-of-range index (negative or at least the
length); the index is not clamped to the sequence bounds, and the function
is total. -/
theorem groundYAt_total_lookup (terrain : List TerrainPoint) (offset height x : ℚ) :
    (∀ p : TerrainPoint, terrain.get? (⌊(x + offset) / 6⌋).toNat = some p →
      0 ≤ ⌊(x + offset) / 6⌋ → groundYAt terrain offset height x = p.y) ∧
    (⌊(x + offset) / 6⌋ < 0 → groundYAt terrain offset height x = height * 0.85) ∧
    (terrain.length ≤ (⌊(x + offset) / 6⌋).toNat →
      groundYAt terrain offset height x = height * 0.85) := by
  refine ⟨?_, ?_, ?_⟩
  · intro p hp hidx
    simp only [groundYAt]
    rw [if_pos hidx, hp]
    rfl
  · intro h
    simp only [groundYAt]
    rw [if_neg (not_le.mpr h)]
  · intro h
    simp only [groundYAt]
    by_cases hidx : 0 ≤ ⌊(x + offset) / 6⌋
    · rw [if_pos hidx, List.get?_eq_none.mpr h]
      rfl
    · rw [if_neg hidx]

/-- Witness for `groundYAt_total_lookup`: at `x = 3` on a one-sample terrain
the index 0 is in range and the sample's `y` is returned. -/
theorem groundYAt_total_lookup_witness :
    [(⟨0, 100⟩ : TerrainPoint)].get? (⌊(((3:ℚ) + 0) / 6 : ℚ)⌋).toNat = some ⟨0, 100⟩ ∧
    0 ≤ ⌊(((3:ℚ) + 0) / 6 : ℚ)⌋ ∧
    groundYAt [⟨0, 100⟩] 0 720 3 = 100 := by
  have h1 : (⌊(((3:ℚ) + 0) / 6 : ℚ)⌋ : ℤ) = 0 := by norm_num
  have hg : [(⟨0, 100⟩ : TerrainPoint)].get? (⌊(((3:ℚ) + 0) / 6 : ℚ)⌋).toNat
      = some ⟨0, 100⟩ := by rw [h1]; rfl
  have hn : (0:ℤ) ≤ ⌊(((3:ℚ) + 0) / 6 : ℚ)⌋ := by rw [h1]
  exact ⟨hg, hn, (groundYAt_total_lookup [⟨0, 100⟩] 0 720 3).1 ⟨0, 100⟩ hg hn⟩

/-- C9 counterexample: for a one-sample terrain and `x = 30` the computed
index 5 is out of range, so the source's `groundYAt` answers the default
`720 * 0.85 = 612`, while the spec's "clamped to sequence bounds" lookup
would answer the sample value 100. -/
theorem groundYAt_out_of_range_not_clamped :
    groundYAt [⟨0, 100⟩] 0 720 30 = 612 ∧
    groundYAtClamped [⟨0, 100⟩] 0 720 30 = 100 ∧
    (612 : ℚ) ≠ 100 := by
  refine ⟨?_, ?_, by norm_num⟩
  · simp only [groundYAt]
    norm_num
    simp
  · simp only [groundYAtClamped]
    norm_num

/-- C2: after the ship-control step of a tick the ship's vertical position
lies in `[40, groundYAt(ship.x) - ship.h - 10]`, provided the ground at the
ship's (clamped) horizontal position leaves room for the band — which the
sine-generated terrain (minimum around `0.82 * height - 75.6` for
`height ≥ 360`) and the default `0.85 * height` always do. -/
theorem ship_vertical_clamp_invariant (s : Ship) (k : Keys) (autoScroll dt width : ℚ)
    (terrain : List TerrainPoint) (offset height : ℚ)
    (hroom : 50 + s.h ≤ groundYAt terrain offset height
      ((shipUpdate s k autoScroll dt width terrain offset height).x)) :
    40 ≤ (shipUpdate s k autoScroll dt width terrain offset height).y ∧
    (shipUpdate s k autoScroll dt width terrain offset height).y ≤
      groundYAt terrain offset height
        ((shipUpdate s k autoScroll dt width terrain offset height).x) - s.h - 10 := by
  simp only [shipUpdate] at hroom ⊢
  exact ⟨le_max_left _ _, max_le (by linarith) (min_le_left _ _)⟩

/-- Witness for `ship_vertical_clamp_invariant`: the initial ship on an
empty terrain (default ground 612) stays inside the vertical band. -/
theorem ship_vertical_clamp_invariant_witness :
    50 + (⟨120, 360, 38, 22, 0, 0, 280, 0⟩ : Ship).h ≤ groundYAt [] 0 720
      ((shipUpdate ⟨120, 360, 38, 22, 0, 0, 280, 0⟩ ⟨false, false, false, false⟩
        41.2 0.016 1280 [] 0 720).x) ∧
    (40 ≤ (shipUpdate ⟨120, 360, 38, 22, 0, 0, 280, 0⟩ ⟨false, false, false, false⟩
        41.2 0.016 1280 [] 0 720).y ∧
      (shipUpdate ⟨120, 360, 38, 22, 0, 0, 280, 0⟩ ⟨false, false, false, false⟩
        41.2 0.016 1280 [] 0 720).y ≤
        groundYAt [] 0 720 ((shipUpdate ⟨120, 360, 38, 22, 0, 0, 280, 0⟩
          ⟨false, false, false, false⟩ 41.2 0.016 1280 [] 0 720).x) -
          (⟨120, 360, 38, 22, 0, 0, 280, 0⟩ : Ship).h - 10) := by
  have hroom : 50 + (⟨120, 360, 38, 22, 0, 0, 280, 0⟩ : Ship).h ≤ groundYAt [] 0 720
      ((shipUpdate ⟨120, 360, 38, 22, 0, 0, 280, 0⟩ ⟨false, false, false, false⟩
        41.2 0.016 1280 [] 0 720).x) := by
    simp only [shipUpdate, groundYAt]
    norm_num
  exact ⟨hroom, ship_vertical_clamp_invariant _ _ _ _ _ _ _ _ hroom⟩

/-- C5 (amended): two fire-bullet invocations less than 180 ms apart add
exactly one bullet and the second invocation changes no state, provided the
first invocation passes the guard with a nonzero timestamp (the guard tests
JavaScript truthiness of the stored time, so a stored time of exactly 0 is
not seen as a pending cooldown). -/
theorem shoot_cooldown_single_bullet (s : Ship) (st : ShootState) (t1 t2 : ℚ)
    (h1 : shootBlocked st.lastShot t1 = false) (h2 : t1 ≠ 0) (h3 : t2 - t1 < 180) :
    shoot s t2 (shoot s t1 st) = shoot s t1 st ∧
    (shoot s t1 st).bullets.length = st.bullets.length + 1 := by
  have hfirst : shoot s t1 st =
      { lastShot := some t1, bullets := st.bullets ++ [newBullet s] } := by
    simp [shoot, h1]
  have hblocked : shootBlocked (some t1) t2 = true := by
    simp [shootBlocked, h2, h3]
  rw [hfirst]
  constructor
  · simp [shoot, hblocked]
  · simp

/-- Witness for `shoot_cooldown_single_bullet`: shots at 1000 ms and
1100 ms — one bullet total, second call is a no-op. -/
theorem shoot_cooldown_single_bullet_witness :
    shootBlocked (none : Option ℚ) 1000 = false ∧
    (shoot ⟨120, 360, 38, 22, 0, 0, 280, 0⟩ 1100
      (shoot ⟨120, 360, 38, 22, 0, 0, 280, 0⟩ 1000 ⟨none, []⟩) =
      shoot ⟨120, 360, 38, 22, 0, 0, 280, 0⟩ 1000 ⟨none, []⟩ ∧
    (shoot ⟨120, 360, 38, 22, 0, 0, 280, 0⟩ 1000 ⟨none, []⟩).bullets.length = 1) := by
  have h := shoot_cooldown_single_bullet ⟨120, 360, 38, 22, 0, 0, 280, 0⟩ ⟨none, []⟩
    1000 1100 rfl (by norm_num) (by norm_num)
  exact ⟨rfl, h.1, h.2⟩

/-- Concrete ship fixture (the initial `st.ship` gameplay fields). -/
def testShip : Ship := ⟨120, 360, 38, 22, 0, 0, 280, 0⟩

/-- Concrete active rocket overlapping `testShip`. -/
def hitRocket : Rocket := ⟨130, 365, -120, -180, 8, 18, true, true, true, true, 195, 0.9, 2.8, 0, 0⟩

/-- Concrete inactive rocket at the same overlapping position. -/
def dormantRocket : Rocket :=
  ⟨130, 365, -120, -180, 8, 18, false, false, false, false, 195, 0.9, 2.8, 0, 0⟩

/-- Rocket whose center is at the bomb center (distance 0). -/
def rIn1 : Rocket := ⟨-4, -9, -120, -180, 8, 18, true, true, true, true, 195, 0.9, 2.8, 0, 0⟩

/-- Rocket whose center is at distance 30 from the origin. -/
def rIn2 : Rocket := ⟨26, -9, -120, -180, 8, 18, true, true, true, true, 195, 0.9, 2.8, 0, 0⟩

/-- Rocket whose center is at distance 60 from the origin. -/
def rIn3 : Rocket := ⟨-4, 51, -120, -180, 8, 18, true, true, true, true, 195, 0.9, 2.8, 0, 0⟩

/-- Rocket whose center is at distance 200 from the origin (outside the
90 px bomb radius). -/
def rOut : Rocket := ⟨196, -9, -120, -180, 8, 18, true, true, true, true, 195, 0.9, 2.8, 0, 0⟩

/-- Rocket whose center is at distance exactly 90 from the origin (on the
bomb-radius boundary). -/
def rEdge : Rocket := ⟨86, -9, -120, -180, 8, 18, true, true, true, true, 195, 0.9, 2.8, 0, 0⟩

/-- C7: the rocket-ship pass tests only active rockets against the ship's
box; an active overlapping rocket is removed, the damage flash is reset to
500 ms and the life-lost signal fires (once for the tick), while an
inactive rocket survives the pass whatever its position. -/
theorem rocket_ship_collision_pass (s : Ship) (rs : List Rocket) (r : Rocket) (hr : r ∈ rs) :
    (r.active = true → aabb (shipBox s) (rocketBox r) = true →
      r ∉ (shipRocketPass s rs).1 ∧ shipRocketFlash s rs = 500 ∧
        loseLifeEmitted s rs = true) ∧
    (r.active = false → r ∈ (shipRocketPass s rs).1) := by
  constructor
  · intro hact hov
    have hhit : shipHit s r = true := by simp [shipHit, hact, hov]
    have hdam : 0 < (shipRocketPass s rs).2 := by
      simp only [shipRocketPass]
      exact List.countP_pos_iff.mpr ⟨r, hr, hhit⟩
    refine ⟨?_, ?_, ?_⟩
    · intro hmem
      simp only [shipRocketPass, List.mem_filter, hhit] at hmem
      simp at hmem
    · simp [shipRocketFlash, hdam]
    · simp [loseLifeEmitted, hdam]
  · intro hact
    simp only [shipRocketPass, List.mem_filter]
    exact ⟨hr, by simp [shipHit, hact]⟩

/-- Witness for `rocket_ship_collision_pass`: an active rocket overlapping
the ship is removed with flash 500 and the life-lost signal raised, while
the inactive rocket at the same position survives. -/
theorem rocket_ship_collision_pass_witness :
    (hitRocket ∈ [hitRocket] ∧ hitRocket.active = true ∧
      aabb (shipBox testShip) (rocketBox hitRocket) = true) ∧
    (hitRocket ∉ (shipRocketPass testShip [hitRocket]).1 ∧
      shipRocketFlash testShip [hitRocket] = 500 ∧
      loseLifeEmitted testShip [hitRocket] = true) ∧
    dormantRocket ∈ (shipRocketPass testShip [dormantRocket]).1 := by
  have hm : hitRocket ∈ [hitRocket] := List.mem_singleton.mpr rfl
  have hab : aabb (shipBox testShip) (rocketBox hitRocket) = true := by
    simp only [aabb, shipBox, rocketBox, testShip, hitRocket, decide_eq_true_eq]
    norm_num
  refine ⟨⟨hm, rfl, hab⟩, ?_, ?_⟩
  · exact (rocket_ship_collision_pass testShip [hitRocket] hitRocket hm).1 rfl hab
  · exact (rocket_ship_collision_pass testShip [dormantRocket] dormantRocket
      (List.mem_singleton.mpr rfl)).2 rfl

/-- C10: whenever either scoring pass emits an `onScore` delta, the delta is
a strictly positive multiple of 10; when a pass destroyed no rocket that
tick it emits nothing. -/
theorem onScore_positive_multiple_of_ten (rs rs2 : List Rocket) (bs : List Bullet)
    (bx bombY : ℚ) :
    (∀ d, bulletScoreEvent (bulletPass rs bs).2.2 = some d → 0 < d ∧ 10 ∣ d) ∧
    ((bulletPass rs bs).2.2 = 0 → bulletScoreEvent (bulletPass rs bs).2.2 = none) ∧
    (∀ d, bombScoreEvent (detonate bx bombY rs2).2 = some d → 0 < d ∧ 10 ∣ d) ∧
    ((detonate bx bombY rs2).2 = 0 → bombScoreEvent (detonate bx bombY rs2).2 = none) := by
  have hbullet : ∀ n d : ℕ, bulletScoreEvent n = some d → 0 < d ∧ 10 ∣ d := by
    intro n d h
    simp only [bulletScoreEvent] at h
    by_cases hn : 0 < n
    · rw [if_pos hn] at h
      obtain rfl : n * 10 = d := Option.some.inj h
      exact ⟨Nat.mul_pos hn (by norm_num), ⟨n, by ring⟩⟩
    · rw [if_neg hn] at h
      cases h
  have hbomb : ∀ n d : ℕ, bombScoreEvent n = some d → 0 < d ∧ 10 ∣ d := by
    intro n d h
    simp only [bombScoreEvent] at h
    by_cases hn : 0 < n
    · rw [if_pos hn] at h
      obtain rfl : n * 20 = d := Option.some.inj h
      exact ⟨Nat.mul_pos hn (by norm_num), ⟨2 * n, by ring⟩⟩
    · rw [if_neg hn] at h
      cases h
  refine ⟨fun d => hbullet _ d, fun h => ?_, fun d => hbomb _ d, fun h => ?_⟩
  · simp [bulletScoreEvent, h]
  · simp [bombScoreEvent, h]

/-- Rocket fixture for the bullet-kill witness. -/
def bpRocket : Rocket := ⟨100, 100, -120, -180, 8, 18, true, true, true, true, 195, 0.9, 2.8, 0, 0⟩

/-- Bullet fixture overlapping `bpRocket`. -/
def bpBullet : Bullet := ⟨104, 109, 520, 0, 3⟩

/-- Witness for `onScore_positive_multiple_of_ten`: one bullet kill emits
exactly `some 10`, which is a positive multiple of 10. -/
theorem onScore_positive_multiple_of_ten_witness :
    bulletScoreEvent (bulletPass [bpRocket] [bpBullet]).2.2 = some 10 ∧
    0 < 10 ∧ (10:ℕ) ∣ 10 := by
  have hab : aabb (bulletBox bpBullet) (rocketBox bpRocket) = true := by
    simp only [aabb, bulletBox, rocketBox, bpBullet, bpRocket, decide_eq_true_eq]
    norm_num
  have h1 : (bulletPass [bpRocket] [bpBullet]).2.2 = 1 := by
    simp [bulletPass, List.findIdx?_cons, hab]
  have hsome : bulletScoreEvent (bulletPass [bpRocket] [bpBullet]).2.2 = some 10 := by
    rw [h1]
    rfl
  exact ⟨hsome, (onScore_positive_multiple_of_ten [bpRocket] [] [bpBullet] 0 0).1 10 hsome⟩

/-- C1 (amended): a bomb detonation at `(bx, bombY)` destroys exactly the
rockets whose center distance from the bomb center is strictly below the
90 px radius — a rocket at distance 90 or more survives the pass — and when
at least one rocket is destroyed the score callback is invoked with exactly
`destroyed * 20`; with zero destroyed it is not invoked. -/
theorem bomb_detonation_strict_radius_and_score (bx bombY : ℚ) (rs : List Rocket) (r : Rocket) :
    ((rocketCenterX r - bx) ^ 2 + (rocketCenterY r - bombY) ^ 2 < 90 ^ 2 →
      r ∉ (detonate bx bombY rs).1) ∧
    (90 ^ 2 ≤ (rocketCenterX r - bx) ^ 2 + (rocketCenterY r - bombY) ^ 2 → r ∈ rs →
      r ∈ (detonate bx bombY rs).1) ∧
    (0 < (detonate bx bombY rs).2 →
      bombScoreEvent (detonate bx bombY rs).2 = some ((detonate bx bombY rs).2 * 20)) ∧
    ((detonate bx bombY rs).2 = 0 → bombScoreEvent (detonate bx bombY rs).2 = none) := by
  refine ⟨?_, ?_, ?_, ?_⟩
  · intro hin hmem
    have hb : inBombRadius bx bombY r = true := by
      simp only [inBombRadius, decide_eq_true_eq]
      exact hin
    simp only [detonate, List.mem_filter, hb] at hmem
    simp at hmem
  · intro hout hmem
    simp only [detonate, List.mem_filter]
    refine ⟨hmem, ?_⟩
    simp only [inBombRadius, Bool.not_eq_true', decide_eq_false_iff_not]
    exact not_lt.mpr hout
  · intro h
    simp [bombScoreEvent, h]
  · intro h
    simp [bombScoreEvent, h]

/-- Witness for `bomb_detonation_strict_radius_and_score`: the spec's
scenario — three rockets strictly inside the 90 px radius and one outside —
destroys exactly the three and emits `onScore 60`. -/
theorem bomb_detonation_strict_radius_and_score_witness :
    ((rocketCenterX rIn1 - 0) ^ 2 + (rocketCenterY rIn1 - 0) ^ 2 < 90 ^ 2 ∧
      rIn1 ∉ (detonate 0 0 [rIn1, rIn2, rIn3, rOut]).1) ∧
    (90 ^ 2 ≤ (rocketCenterX rOut - 0) ^ 2 + (rocketCenterY rOut - 0) ^ 2 ∧
      rOut ∈ (detonate 0 0 [rIn1, rIn2, rIn3, rOut]).1) ∧
    ((detonate 0 0 [rIn1, rIn2, rIn3, rOut]).2 = 3 ∧
      bombScoreEvent (detonate 0 0 [rIn1, rIn2, rIn3, rOut]).2 = some 60) := by
  have h1 : inBombRadius 0 0 rIn1 = true := by
    simp only [inBombRadius, rocketCenterX, rocketCenterY, rIn1, decide_eq_true_eq]
    norm_num
  have h2 : inBombRadius 0 0 rIn2 = true := by
    simp only [inBombRadius, rocketCenterX, rocketCenterY, rIn2, decide_eq_true_eq]
    norm_num
  have h3 : inBombRadius 0 0 rIn3 = true := by
    simp only [inBombRadius, rocketCenterX, rocketCenterY, rIn3, decide_eq_true_eq]
    norm_num
  have h4 : inBombRadius 0 0 rOut = false := by
    simp only [inBombRadius, rocketCenterX, rocketCenterY, rOut, decide_eq_false_iff_not]
    norm_num
  have hcount : (detonate 0 0 [rIn1, rIn2, rIn3, rOut]).2 = 3 := by
    simp [detonate, List.countP_cons, h1, h2, h3, h4]
  have hin1 : (rocketCenterX rIn1 - 0) ^ 2 + (rocketCenterY rIn1 - 0) ^ 2 < 90 ^ 2 := by
    simp only [rocketCenterX, rocketCenterY, rIn1]
    norm_num
  have hout : (90:ℚ) ^ 2 ≤ (rocketCenterX rOut - 0) ^ 2 + (rocketCenterY rOut - 0) ^ 2 := by
    simp only [rocketCenterX, rocketCenterY, rOut]
    norm_num
  refine ⟨⟨hin1, ?_⟩, ⟨hout, ?_⟩, hcount, ?_⟩
  · exact (bomb_detonation_strict_radius_and_score 0 0 [rIn1, rIn2, rIn3, rOut] rIn1).1 hin1
  · exact (bomb_detonation_strict_radius_and_score 0 0 [rIn1, rIn2, rIn3, rOut] rOut).2.1
      hout (by simp)
  · have := (bomb_detonation_strict_radius_and_score 0 0 [rIn1, rIn2, rIn3, rOut] rIn1).2.2.1
      (by rw [hcount]; norm_num)
    rw [hcount] at this ⊢
    simpa using this

/-- C1 counterexample: a rocket whose center sits at distance exactly 90
from the bomb center (squared distance `90 ^ 2`) is NOT destroyed by the
pass — the source tests `d2 < radius * radius` strictly — so the claim's
"distance ≤ 90 is destroyed" fails, and no score is emitted for it. -/
theorem bomb_radius_boundary_rocket_survives :
    (rocketCenterX rEdge - 0) ^ 2 + (rocketCenterY rEdge - 0) ^ 2 = 90 ^ 2 ∧
    rEdge ∈ (detonate 0 0 [rEdge]).1 ∧
    (detonate 0 0 [rEdge]).2 = 0 := by
  have hedge : inBombRadius 0 0 rEdge = false := by
    simp only [inBombRadius, rocketCenterX, rocketCenterY, rEdge, decide_eq_false_iff_not]
    norm_num
  refine ⟨?_, ?_, ?_⟩
  · simp only [rocketCenterX, rocketCenterY, rEdge]
    norm_num
  · simp only [detonate, List.mem_filter, hedge]
    simp
  · simp [detonate, List.countP_cons, hedge]

/-- Membership in the rocket survivors of a detonation implies membership in
the input list (the pass only removes). -/
theorem mem_of_mem_detonate {bx bombY : ℚ} {rs : List Rocket} {r : Rocket}
    (h : r ∈ (detonate bx bombY rs).1) : r ∈ rs :=
  List.mem_of_mem_filter h

/-- Folding the per-bomb rocket filter over a list of detonation points only
removes rockets. -/
theorem mem_of_mem_detonate_foldl :
    ∀ (pts : List (ℚ × ℚ)) (acc : List Rocket) (r : Rocket),
      r ∈ pts.foldl (fun acc p => (detonate p.1 p.2 acc).1) acc → r ∈ acc := by
  intro pts
  induction pts with
  | nil => intro acc r h; simpa using h
  | cons p ps ih =>
    intro acc r h
    simp only [List.foldl_cons] at h
    exact List.mem_of_mem_filter (ih _ _ h)

/-- The bullet-rocket pass only removes rockets. -/
theorem mem_of_mem_bulletPass_rockets :
    ∀ (rs : List Rocket) (bs : List Bullet) (r : Rocket),
      r ∈ (bulletPass rs bs).1 → r ∈ rs := by
  intro rs
  induction rs with
  | nil => intro bs r h; simp [bulletPass] at h
  | cons a rs ih =>
    intro bs r h
    cases hf : bs.findIdx? (fun b => aabb (bulletBox b) (rocketBox a)) with
    | some i =>
      simp only [bulletPass, hf] at h
      exact List.mem_cons_of_mem _ (ih _ _ h)
    | none =>
      simp only [bulletPass, hf, List.mem_cons] at h
      rcases h with h | h
      · exact h ▸ List.mem_cons_self _ _
      · exact List.mem_cons_of_mem _ (ih _ _ h)

/-- The bullet-rocket pass only removes bullets. -/
theorem mem_of_mem_bulletPass_bullets :
    ∀ (rs : List Rocket) (bs : List Bullet) (b : Bullet),
      b ∈ (bulletPass rs bs).2.1 → b ∈ bs := by
  intro rs
  induction rs with
  | nil => intro bs b h; simpa [bulletPass] using h
  | cons a rs ih =>
    intro bs b h
    cases hf : bs.findIdx? (fun bu => aabb (bulletBox bu) (rocketBox a)) with
    | some i =>
      simp only [bulletPass, hf] at h
      exact List.eraseIdx_subset _ _ (ih _ _ h)
    | none =>
      simp only [bulletPass, hf] at h
      exact ih _ _ h

/-- The rocket-ship pass only removes rockets. -/
theorem mem_of_mem_shipRocketPass {s : Ship} {rs : List Rocket} {r : Rocket}
    (h : r ∈ (shipRocketPass s rs).1) : r ∈ rs :=
  List.mem_of_mem_filter h

/-- C4 (amended): a rocket behind the camera (`x ≤ -60`) or below the
viewport (`y ≥ height + 60`) is absent from the end-of-tick rocket list, and
a bullet outside its horizontal bounds is absent from the end-of-tick bullet
list; the source keeps rockets that are merely above the viewport. -/
theorem offscreen_rocket_bullet_pruned (rs : List Rocket) (height width : ℚ)
    (bombPts : List (ℚ × ℚ)) (bs : List Bullet) (s : Ship) (r : Rocket) (b : Bullet) :
    (r.x ≤ -60 ∨ height + 60 ≤ r.y → r ∉ rocketsAfterTick rs height bombPts bs s) ∧
    (width + 40 ≤ b.x ∨ b.x ≤ -40 → b ∉ bulletsAfterTick rs width bs) := by
  constructor
  · intro hout hmem
    simp only [rocketsAfterTick] at hmem
    have h1 : r ∈ pruneRockets height rs :=
      mem_of_mem_detonate_foldl _ _ _
        (mem_of_mem_bulletPass_rockets _ _ _ (mem_of_mem_shipRocketPass hmem))
    simp only [pruneRockets, List.mem_filter, decide_eq_true_eq] at h1
    rcases hout with h | h
    · linarith [h1.2.1]
    · linarith [h1.2.2]
  · intro hout hmem
    simp only [bulletsAfterTick] at hmem
    have h1 : b ∈ pruneBullets width bs := mem_of_mem_bulletPass_bullets _ _ _ hmem
    simp only [pruneBullets, List.mem_filter, decide_eq_true_eq] at h1
    rcases hout with h | h
    · linarith [h1.2.1]
    · linarith [h1.2.2]

/-- Rocket fixture behind the camera (`x = -100 ≤ -60`). -/
def goneRocket : Rocket := ⟨-100, 50, -120, -180, 8, 18, true, true, true, true, 195, 0.9, 2.8, 0, 0⟩

/-- Bullet fixture behind the camera (`x = -50 ≤ -40`). -/
def goneBullet : Bullet := ⟨-50, 10, 520, 0, 3⟩

/-- Rocket fixture above the viewport (`y = -100`) but inside the pruning
bounds the source actually checks. -/
def farRocket : Rocket := ⟨100, -100, -120, -180, 8, 18, true, true, true, true, 195, 0.9, 2.8, 0, 0⟩

/-- Witness for `offscreen_rocket_bullet_pruned`: a rocket behind the camera
and a bullet behind the camera are gone after the tick's passes. -/
theorem offscreen_rocket_bullet_pruned_witness :
    (goneRocket.x ≤ -60 ∨ (720:ℚ) + 60 ≤ goneRocket.y) ∧
    goneRocket ∉ rocketsAfterTick [goneRocket] 720 [] [] testShip ∧
    ((1280:ℚ) + 40 ≤ goneBullet.x ∨ goneBullet.x ≤ -40) ∧
    goneBullet ∉ bulletsAfterTick [] 1280 [goneBullet] := by
  have hr : goneRocket.x ≤ -60 ∨ (720:ℚ) + 60 ≤ goneRocket.y := by
    left
    norm_num [goneRocket]
  have hb : (1280:ℚ) + 40 ≤ goneBullet.x ∨ goneBullet.x ≤ -40 := by
    right
    norm_num [goneBullet]
  exact ⟨hr,
    (offscreen_rocket_bullet_pruned [goneRocket] 720 1280 [] [] testShip goneRocket
      goneBullet).1 hr,
    hb,
    (offscreen_rocket_bullet_pruned [] 720 1280 [] [goneBullet] testShip goneRocket
      goneBullet).2 hb⟩

/-- C4 counterexample: a rocket above the viewport (`y = -100 < 0`) is NOT
pruned — the source's filter only checks `r.x > -60 && r.y < height + 60` —
so it is still present in the end-of-tick rocket list, contradicting the
claim that rockets above the viewport are absent from the next tick. -/
theorem rocket_above_viewport_persists :
    farRocket.y < 0 ∧
    farRocket ∈ rocketsAfterTick [farRocket] 720 [] [] testShip := by
  constructor
  · norm_num [farRocket]
  · have hprune : pruneRockets 720 [farRocket] = [farRocket] := by
      have : decide (farRocket.x > -60 ∧ farRocket.y < 720 + 60) = true := by
        simp only [farRocket, decide_eq_true_eq]
        norm_num
      simp [pruneRockets, List.filter, this]
    have hbp : (bulletPass [farRocket] []).1 = [farRocket] := by
      simp [bulletPass, List.findIdx?_nil]
    have hhit : shipHit testShip farRocket = false := by
      simp only [shipHit, aabb, shipBox, rocketBox, testShip, farRocket]
      simp only [Bool.and_eq_false_iff]
      right
      simp only [decide_eq_false_iff_not]
      norm_num
    have hsp : (shipRocketPass testShip [farRocket]).1 = [farRocket] := by
      simp [shipRocketPass, List.filter, hhit]
    simp only [rocketsAfterTick, List.foldl_nil, hprune, hbp, hsp]
    exact List.mem_singleton.mpr rfl

/-- C8: the per-tick delta-time is clamped to at most 0.033 s, is exactly 0
on the first tick after a (re)start (`lastTime = 0`), and a zero delta moves
no entity: the ship (already inside its clamp bands), rockets, bullets,
bombs and particles all keep their positions. -/
theorem delta_time_clamp_and_zero_first_tick
    (lastTime now : ℚ) (s : Ship) (k : Keys) (autoScroll width : ℚ)
    (terrain : List TerrainPoint) (offset height : ℚ)
    (r : Rocket) (scroll g : ℚ) (b : Bullet) (bo : Bomb) (p : Particle)
    (hx1 : 20 ≤ s.x) (hx2 : s.x ≤ width * 0.7)
    (hy1 : 40 ≤ s.y) (hy2 : s.y ≤ groundYAt terrain offset height s.x - s.h - 10) :
    dtOf lastTime now ≤ 0.033 ∧
    dtOf 0 now = 0 ∧
    ((shipUpdate s k autoScroll 0 width terrain offset height).x = s.x ∧
      (shipUpdate s k autoScroll 0 width terrain offset height).y = s.y) ∧
    ((rocketMove r 0 scroll g).x = r.x ∧ (rocketMove r 0 scroll g).y = r.y) ∧
    ((bulletMove b 0 scroll).x = b.x ∧ (bulletMove b 0 scroll).y = b.y) ∧
    ((bombMove bo 0 scroll).x = bo.x ∧ (bombMove bo 0 scroll).y = bo.y) ∧
    ((particleUpdate p 0).x = p.x ∧ (particleUpdate p 0).y = p.y) := by
  have hxfix : max 20 (min (width * 0.7) (s.x + (autoScroll +
      ((if k.right then (1:ℚ) else 0) * s.speed -
        (if k.left then (1:ℚ) else 0) * s.speed * 0.8)) * 0)) = s.x := by
    rw [mul_zero, add_zero, min_eq_right hx2, max_eq_right hx1]
  refine ⟨?_, ?_, ⟨?_, ?_⟩, ?_, ?_, ?_, ?_⟩
  · unfold dtOf
    split_ifs
    · exact min_le_left _ _
    · norm_num
  · simp [dtOf]
  · simp only [shipUpdate]
    exact hxfix
  · simp only [shipUpdate, hxfix]
    rw [mul_zero, add_zero]
    rw [min_eq_right hy2, max_eq_right hy1]
  · constructor <;> simp [rocketMove]
  · constructor <;> simp [bulletMove]
  · constructor <;> simp [bombMove]
  · obtain ⟨px, py, pvx, pvy, plife, page, psize, pt⟩ := p
    cases pt <;> simp [particleUpdate]

/-- Witness for `delta_time_clamp_and_zero_first_tick`: on the initial ship
state over the default ground, the first tick after a restart has `dt = 0`
and the ship keeps its position. -/
theorem delta_time_clamp_and_zero_first_tick_witness :
    (20 ≤ testShip.x ∧ testShip.x ≤ (1280:ℚ) * 0.7 ∧ 40 ≤ testShip.y ∧
      testShip.y ≤ groundYAt [] 0 720 testShip.x - testShip.h - 10) ∧
    dtOf 5 9999 ≤ 0.033 ∧
    dtOf 0 9999 = 0 ∧
    ((shipUpdate testShip ⟨false, false, false, false⟩ 41.2 0 1280 [] 0 720).x = testShip.x ∧
      (shipUpdate testShip ⟨false, false, false, false⟩ 41.2 0 1280 [] 0 720).y = testShip.y) := by
  have hgy : groundYAt [] 0 720 testShip.x = 612 := by
    simp only [groundYAt, testShip]
    norm_num
  have hx1 : (20:ℚ) ≤ testShip.x := by norm_num [testShip]
  have hx2 : testShip.x ≤ (1280:ℚ) * 0.7 := by norm_num [testShip]
  have hy1 : (40:ℚ) ≤ testShip.y := by norm_num [testShip]
  have hy2 : testShip.y ≤ groundYAt [] 0 720 testShip.x - testShip.h - 10 := by
    rw [hgy]
    norm_num [testShip]
  have h := delta_time_clamp_and_zero_first_tick 5 9999 testShip
    ⟨false, false, false, false⟩ 41.2 1280 [] 0 720
    ⟨0, 0, 0, 0, 8, 18, true, true, true, true, 195, 0.9, 2.8, 0, 0⟩ 100 326
    ⟨0, 0, 520, 0, 3⟩ ⟨0, 0, 60, 120, 8, 1200, 0⟩ ⟨0, 0, 10, 10, 500, 0, 3, PType.flame⟩
    hx1 hx2 hy1 hy2
  exact ⟨⟨hx1, hx2, hy1, hy2⟩, h.1, h.2.1, h.2.2.1⟩

/-- C5 counterexample: when the first shot lands at timestamp exactly 0, the
stored `lastShot` is falsy, so a second shot only 100 ms later passes the
guard and a second bullet is added — the claim's "exactly one bullet" fails
for this input. -/
theorem shoot_at_time_zero_double_bullet :
    ((100:ℚ) - 0 < 180) ∧
    (shoot ⟨120, 360, 38, 22, 0, 0, 280, 0⟩ 100
      (shoot ⟨120, 360, 38, 22, 0, 0, 280, 0⟩ 0 ⟨none, []⟩)).bullets.length = 2 := by
  constructor
  · norm_num
  · have e1 : shoot ⟨120, 360, 38, 22, 0, 0, 280, 0⟩ 0 ⟨none, []⟩ =
        ⟨some 0, [newBullet ⟨120, 360, 38, 22, 0, 0, 280, 0⟩]⟩ := by
      simp [shoot, shootBlocked]
    have e2 : shootBlocked (some (0:ℚ)) 100 = false := by
      simp [shootBlocked]
    rw [e1]
    simp [shoot, e2]
